import Mathlib

/-!
Verification of `create_db.py`: a shallow embedding of the database
provisioning script (connection factory, existence checks, schema
initializer, bulk loader, reporting query, orchestrator) together with
proofs about the claims of the specification.

External effects (the PostgreSQL server, the filesystem, argparse's exit)
are modelled explicitly: catalog state is a list of names, query and
connection outcomes are oracle parameters, and process termination is an
`Except` error value.
-/

deriving instance DecidableEq for Except

namespace CreateDb

/-- Process-terminating outcomes. `systemExit` models `raise SystemExit`
from the except-handlers; `fileNotFound` models the uncaught
`FileNotFoundError` escaping `open()`; `usageError` models argparse
rejecting a command-line value and exiting. -/
inductive PyExit where
  | systemExit
  | fileNotFound
  | usageError
deriving DecidableEq, Repr

/-- The Python values that flow through the script's comparisons: strings
(table/database names, argparse values after `type=str`), booleans
(argparse `choices=[True, False]` and defaults), and the row tuples
returned by `cursor.fetchall()` for single-column catalog queries
(tuples of strings). Structural equality of this type coincides with
Python `==` on these values: a `str` never equals a `tuple` or a `bool`
(in particular `"True" == True` is `False` in Python). -/
inductive PyVal where
  | pyStr (s : String)
  | pyBool (b : Bool)
  | pyTuple (elems : List String)
deriving DecidableEq, Repr

/-- Python `<` on strings: lexicographic comparison of the Unicode code
points of the characters. -/
def charsLt : List Char → List Char → Bool
  | [], [] => false
  | [], _ :: _ => true
  | _ :: _, [] => false
  | a :: as, b :: bs =>
    if a.toNat < b.toNat then true
    else if b.toNat < a.toNat then false
    else charsLt as bs

def strLt (a b : String) : Bool := charsLt a.data b.data

/-- Python `<` on the homogeneous values the script sorts: strings
lexicographically, and tuples of strings lexicographically elementwise.
(Mixed comparisons never occur in the script's sorted lists.) -/
def strListLt : List String → List String → Bool
  | [], [] => false
  | [], _ :: _ => true
  | _ :: _, [] => false
  | a :: as, b :: bs =>
    if strLt a b then true else if strLt b a then false else strListLt as bs

def pyLt : PyVal → PyVal → Bool
  | .pyStr a, .pyStr b => strLt a b
  | .pyTuple a, .pyTuple b => strListLt a b
  | _, _ => false

/-- Insertion step of `sorted(...)`. -/
def pyInsert (a : PyVal) : List PyVal → List PyVal
  | [] => [a]
  | b :: t => if pyLt a b then a :: b :: t else b :: pyInsert a t

/-- Python's `sorted(...)` on a list of `PyVal` (insertion sort; the
script only needs the order and multiset of the result). -/
def pySorted : List PyVal → List PyVal
  | [] => []
  | a :: t => pyInsert a (pySorted t)

/-- `ORDER BY table_name` of the catalog query, on plain strings. -/
def strInsert (a : String) : List String → List String
  | [] => [a]
  | b :: t => if strLt a b then a :: b :: t else b :: strInsert a t

def strSort : List String → List String
  | [] => []
  | a :: t => strInsert a (strSort t)

/-- The fixed tuple `db_tables` of `main`. -/
def main_db_tables : List String :=
  ["users", "categories", "carts", "orders", "products", "cart_product"]

/-- `check_if_exists_database(connection, db_name)`: runs
`SELECT datname FROM pg_database`, and on success returns whether the
1-tuple `(db_name,)` is among the fetched rows; a query failure is
printed and raises `SystemExit`. The server's catalog (the database
names `pg_database` lists) and the query outcome are explicit
parameters. -/
def check_if_exists_database (queryOk : Bool) (catalog : List String)
    (db_name : String) : Except PyExit Bool :=
  if queryOk then
    let list_databases : List PyVal := catalog.map (fun d => .pyTuple [d])
    .ok (list_databases.contains (.pyTuple [db_name]))
  else
    .error .systemExit

/-- `create_database(db_name, connection)`: sets autocommit, issues
`CREATE DATABASE` with the name as an identifier; PostgreSQL fails the
statement when the database already exists, which the handler turns into
`SystemExit`; on success the catalog gains the name and `True` is
returned. -/
def create_database (db_name : String) (catalog : List String) :
    Except PyExit (List String × Bool) :=
  if db_name ∈ catalog then .error .systemExit
  else .ok (catalog ++ [db_name], true)

/-- `check_if_exists_tables(connection, db_tables)`: runs
`SELECT table_name FROM information_schema.tables WHERE
table_schema='public' ORDER BY table_name`; a query failure is printed
and raises `SystemExit`; otherwise the function returns
`sorted(db_tables) == sorted(list_tables)` — where `db_tables` is a
tuple of strings but `list_tables` is the list of fetched 1-tuples.
The success value is wrapped in `some` to reflect the Python annotation
`Union[None, bool]`. -/
def check_if_exists_tables (queryOk : Bool) (catalog : List String)
    (db_tables : List String) : Except PyExit (Option Bool) :=
  if queryOk then
    let list_tables : List PyVal := (strSort catalog).map (fun t => .pyTuple [t])
    .ok (some (decide (pySorted (db_tables.map .pyStr) = pySorted list_tables)))
  else
    .error .systemExit

/-- The table phase of `main` (lines 365–371): call
`check_if_exists_tables`; if the result `is not None` print
"All tables are exists", else call `create_tables`. The returned boolean
records whether `create_tables` was invoked. -/
def main_table_phase (queryOk : Bool) (catalog : List String) :
    Except PyExit Bool :=
  match check_if_exists_tables queryOk catalog main_db_tables with
  | .error e => .error e
  | .ok r => .ok r.isNone

/-- The `choices` list of the `--insert_data` argument of `get_parser`:
`choices=[True, False]` — Python booleans, not strings. -/
def insert_data_choices : List PyVal := [.pyBool true, .pyBool false]

/-- Argparse handling of `--insert_data` (`type=str,
choices=[True, False], default=False`): when the option is omitted the
default `False` is used unchanged; when a value is supplied on the
command line, `type=str` leaves it a string and argparse then rejects it
unless it is `in choices` (Python `==` against the boolean choices),
exiting with a usage error otherwise. -/
def parse_insert_data : Option String → Except PyExit PyVal
  | none => .ok (.pyBool false)
  | some s =>
    if insert_data_choices.contains (.pyStr s) then .ok (.pyStr s)
    else .error .usageError

/-- Python truthiness, as used by `if insert_data:` in `main`. -/
def pyTruthy : PyVal → Bool
  | .pyBool b => b
  | .pyStr s => !(s == "")
  | .pyTuple l => !l.isEmpty

/-- Whether `main`'s bulk-load loop runs for a given parsed
`--insert_data` value (line 374: `if insert_data:`). -/
def main_runs_bulk_load (insert_data : PyVal) : Bool :=
  pyTruthy insert_data

/-- The keyword arguments `create_connection_to_POSTGRES` passes to
`psycopg2.connect`. -/
structure ConnParams where
  user : String
  password : String
  host : String
  port : String
  connect_timeout : Nat
  database : Option String
deriving DecidableEq, Repr

/-- A live connection handle, carrying the parameters it was opened
with. -/
structure Connection where
  params : ConnParams
deriving DecidableEq, Repr

/-- Outcome of a single `psycopg2.connect` attempt (success, or any
driver/OS failure: auth, network, unknown host). -/
inductive ConnectOutcome where
  | success
  | failure (msg : String)
deriving DecidableEq, Repr

/-- The driver's `psycopg2.connect`: returns a connection built from the
given parameters, or the underlying error. -/
def psycopg2_connect (p : ConnParams) : ConnectOutcome → Except String Connection
  | .success => .ok ⟨p⟩
  | .failure msg => .error msg

/-- `create_connection_to_POSTGRES(db_user, db_password, db_host,
db_port, db_name=None)`: one `psycopg2.connect` attempt with
`connect_timeout=10`; any exception is printed and turned into
`raise SystemExit`; on success the connection object is returned. -/
def create_connection_to_POSTGRES (db_user db_password db_host db_port : String)
    (db_name : Option String) (outcome : ConnectOutcome) :
    Except PyExit Connection :=
  match psycopg2_connect
      { user := db_user, password := db_password, host := db_host,
        port := db_port, connect_timeout := 10, database := db_name }
      outcome with
  | .error _ => .error .systemExit
  | .ok connection => .ok connection

/-- First statement of `create_tables.commands`, verbatim. -/
def sql_users : String :=
  " \n        CREATE TABLE IF NOT EXISTS users (\n            user_id INTEGER NOT NULL PRIMARY KEY\n                GENERATED ALWAYS AS IDENTITY,\n            email VARCHAR(255) NOT NULL,\n            password VARCHAR(255) NOT NULL,\n            first_name VARCHAR(255) NOT NULL,\n            last_name VARCHAR(255) NOT NULL,\n            gender VARCHAR(45),\n            is_staff SMALLINT,\n            country VARCHAR(255),\n            city VARCHAR(255),\n            address TEXT\n        )\n        "

/-- Second statement of `create_tables.commands`, verbatim. -/
def sql_categories : String :=
  "\n        CREATE TABLE IF NOT EXISTS categories (\n            category_id INTEGER  NOT NULL PRIMARY KEY\n                GENERATED ALWAYS AS IDENTITY,\n            category_title VARCHAR(255) NOT NULL,\n            category_description TEXT\n        )\n        "

/-- Third statement of `create_tables.commands`, verbatim. -/
def sql_carts : String :=
  "\n        CREATE TABLE IF NOT EXISTS carts (\n            cart_id INTEGER NOT NULL PRIMARY KEY\n                GENERATED ALWAYS AS IDENTITY,\n            Users_user_id INTEGER NOT NULL,\n            subtotal DECIMAL NOT NULL,\n            total DECIMAL NOT NULL,\n            created_at TIMESTAMP WITHOUT TIME ZONE NOT NULL,\n            FOREIGN KEY (Users_user_id) REFERENCES users (user_id)\n        )\n        "

/-- Fourth statement of `create_tables.commands`, verbatim. -/
def sql_orders : String :=
  "\n        CREATE TABLE IF NOT EXISTS orders (\n            order_id INTEGER NOT NULL PRIMARY KEY,\n            Users_user_id INTEGER NOT NULL,\n            Carts_cart_id INTEGER NOT NULL,\n            status_name VARCHAR(255) NOT NULL,\n            shipping_total DECIMAL NOT NULL,\n            total DECIMAL NOT NULL,\n            created_at TIMESTAMP WITHOUT TIME ZONE NOT NULL,\n            updated_at TIMESTAMP WITHOUT TIME ZONE NOT NULL,\n            FOREIGN KEY (Users_user_id) REFERENCES\n                users (user_id),\n            FOREIGN KEY (Carts_cart_id) REFERENCES carts (cart_id)\n        )\n        "

/-- Fifth statement of `create_tables.commands`, verbatim. -/
def sql_products : String :=
  "\n        CREATE TABLE IF NOT EXISTS products (\n            product_id INTEGER NOT NULL PRIMARY KEY\n                GENERATED ALWAYS AS IDENTITY,\n            product_title VARCHAR(255) NOT NULL,\n            product_description TEXT,\n            in_stock INTEGER NOT NULL,\n            slug VARCHAR(45) NOT NULL,\n            price REAL NOT NULL,\n            Category_category_id INTEGER NOT NULL,\n            Orders_order_id INTEGER NOT NULL,\n            FOREIGN KEY (Category_category_id) REFERENCES categories (category_id),\n            FOREIGN KEY (Orders_order_id) REFERENCES orders (order_id)\n        )\n        "

/-- Sixth statement of `create_tables.commands`, verbatim. -/
def sql_cart_product : String :=
  "\n            CREATE TABLE IF NOT EXISTS cart_product (\n                Carts_cart_id INTEGER NOT NULL,\n                Products_product_id INTEGER NOT NULL,\n                FOREIGN KEY (Carts_cart_id) REFERENCES carts (cart_id),\n                FOREIGN KEY (Products_product_id) REFERENCES products (product_id)\n            )\n        "

/-- The fixed tuple `commands` of `create_tables`: the six
table-creation statements in dependency order. -/
def commands : List String :=
  [sql_users, sql_categories, sql_carts, sql_orders, sql_products, sql_cart_product]

/-- Match a list of characters against an expected literal prefix,
returning what follows it. -/
def dropLit : List Char → List Char → Option (List Char)
  | [], rest => some rest
  | _ :: _, [] => none
  | p :: ps, c :: cs => if c = p then dropLit ps cs else none

/-- Extract the target table name of a `CREATE TABLE IF NOT EXISTS`
statement: skip leading whitespace, require the literal keyword
sequence, then read the name up to the following space, parenthesis or
newline. Returns `none` for any other statement. -/
def createIfNotExistsTarget (cmd : String) : Option String :=
  match dropLit "CREATE TABLE IF NOT EXISTS ".data
      (cmd.data.dropWhile Char.isWhitespace) with
  | some rest =>
      some ⟨rest.takeWhile (fun c => !(c == ' ' || c == '(' || c == '\n'))⟩
  | none => none

/-- Engine semantics of one statement on the set of tables of the public
schema: `CREATE TABLE IF NOT EXISTS t` adds `t` when absent and is a
no-op when `t` already exists (never an error); anything else is not a
statement this model executes. -/
def execSqlCreate (tables : List String) (cmd : String) :
    Except String (List String) :=
  match createIfNotExistsTarget cmd with
  | some name => .ok (if name ∈ tables then tables else tables ++ [name])
  | none => .error "unsupported statement"

/-- Effect of `create_tables` on the table set: the six `commands` are
executed in order against the current table set. -/
def create_tables_effect (tables : List String) : Except String (List String) :=
  commands.foldlM execSqlCreate tables

/-- Folding plain name insertion, the closed form of
`create_tables_effect`. -/
def applyNames (tables : List String) : List String → List String
  | [] => tables
  | n :: rest => applyNames (if n ∈ tables then tables else tables ++ [n]) rest

/-- Observable control-flow trace of one `create_tables` call: which
statement indices were executed (including a failing one), how many
commits were issued, whether an error was printed, and whether an
exception escaped the function. -/
structure CreateTablesTrace where
  attempted : List Nat
  commits : Nat
  errorLogged : Bool
  raised : Bool
deriving DecidableEq, Repr

/-- The `for command, table in zip(commands, db_tables)` loop: execute
statements at successive indices until the list is exhausted or a
statement raises; returns the attempted indices and whether a statement
raised. `fails i` is the oracle telling whether `cursor.execute` of the
i-th statement raises. -/
def execStatements (fails : Nat → Bool) : Nat → List (String × String) → List Nat × Bool
  | _, [] => ([], false)
  | i, _ :: rest =>
    if fails i then ([i], true)
    else
      let r := execStatements fails (i + 1) rest
      (i :: r.1, r.2)

/-- `create_tables(connection, db_tables)`: the whole loop and the
`connection.commit()` after it sit inside one try-block; the except
handler prints the error and the function returns without re-raising, so
a failure aborts the loop before the commit, and a fully successful loop
commits exactly once. -/
def create_tables_run (fails : Nat → Bool) : CreateTablesTrace :=
  let r := execStatements fails 0 (commands.zip main_db_tables)
  { attempted := r.1
    commits := if r.2 then 0 else 1
    errorLogged := r.2
    raised := false }

/-- Outcome of locating and copying one table's CSV file: the file can
be missing, or present with the bulk copy either succeeding or raising a
driver error (malformed row, constraint violation, …). -/
inductive FileOutcome where
  | missing
  | present (copyFails : Bool)
deriving DecidableEq, Repr

/-- Whether the bulk-copy of a located file raises a driver error
(reading off the `present` case; a missing file never reaches the
copy). -/
def copyFailed : FileOutcome → Bool
  | .missing => false
  | .present b => b

/-- Observable trace of one `insert_data_to_db` call that returned
normally. -/
structure InsertTrace where
  errorLogged : Bool
  committed : Bool
deriving DecidableEq, Repr

/-- `insert_data_to_db(connection, table)`: `open(path)` runs before the
try-block, so a missing file raises an uncaught `FileNotFoundError`;
only the `cursor.copy_from` call is inside the try, whose handler prints
the error; `connection.commit()` runs after the with-blocks in either
handled case. -/
def insert_data_to_db (outcome : FileOutcome) : Except PyExit InsertTrace :=
  match outcome with
  | .missing => .error .fileNotFound
  | .present copyFails => .ok { errorLogged := copyFails, committed := true }

/-- `main`'s bulk-load loop (lines 374–376): `insert_data_to_db` once
per table of `db_tables` in order, with no surrounding try, so an
exception escaping one call aborts the whole loop. `outcomes` gives each
table's file outcome. Returns the per-table traces in order. -/
def bulk_load_loop (outcomes : String → FileOutcome) :
    List String → Except PyExit (List (String × InsertTrace))
  | [] => .ok []
  | t :: rest =>
    match insert_data_to_db (outcomes t) with
    | .error e => .error e
    | .ok tr =>
      match bulk_load_loop outcomes rest with
      | .error e => .error e
      | .ok rs => .ok ((t, tr) :: rs)

/-- A row of the `users` table, restricted to the columns the reporting
query reads (`user_id`, `first_name`, `last_name`); the remaining
columns do not influence the query result. -/
structure UserRow where
  user_id : Int
  first_name : String
  last_name : String
deriving DecidableEq, Repr

/-- A row of the `cart_product` linking table; both columns are declared
`NOT NULL`. -/
structure CartProductRow where
  carts_cart_id : Int
  products_product_id : Int
deriving DecidableEq, Repr

/-- The result rows of `first_select_query`: for every `users` row, its
`first_name`, `last_name`, and the correlated subquery
`SELECT COUNT(products_product_id) FROM cart_product WHERE
cart_product.carts_cart_id = users.user_id` (a count of non-null values,
and `products_product_id` is `NOT NULL`, so a plain row count). -/
def first_select (users : List UserRow) (cart_product : List CartProductRow) :
    List (String × String × Nat) :=
  users.map (fun u =>
    (u.first_name, u.last_name,
      (cart_product.filter (fun cp => cp.carts_cart_id == u.user_id)).length))

/-- A pandas `DataFrame` as the script uses it: rows plus column
labels. -/
structure DataFrame where
  rows : List (String × String × Nat)
  columns : List String
deriving DecidableEq, Repr

/-- `DataFrame.head(n)`: the first `n` rows. -/
def DataFrame.head (df : DataFrame) (n : Nat) : DataFrame :=
  { df with rows := df.rows.take n }

/-- `first_db_request(connection)`: execute the fixed select; a query
failure is printed and raises `SystemExit`; on success the rows are
wrapped in a `DataFrame` with the three column labels. -/
def first_db_request (queryOk : Bool) (users : List UserRow)
    (cart_product : List CartProductRow) : Except PyExit DataFrame :=
  if queryOk then
    .ok { rows := first_select users cart_product
          columns := ["First name", "Last name", "Number of products in the cart"] }
  else
    .error .systemExit

/-- The report `main` prints (line 378):
`first_db_request(connection).head(20)`. -/
def main_report (queryOk : Bool) (users : List UserRow)
    (cart_product : List CartProductRow) : Except PyExit DataFrame :=
  match first_db_request queryOk users cart_product with
  | .error e => .error e
  | .ok df => .ok (df.head 20)

/-! ### Helper lemmas -/

theorem mem_of_mem_pyInsert {x a : PyVal} {l : List PyVal} (h : x ∈ pyInsert a l) :
    x = a ∨ x ∈ l := by
  induction l with
  | nil =>
    rw [pyInsert] at h
    exact .inl (List.mem_singleton.mp h)
  | cons b t ih =>
    rw [pyInsert] at h
    by_cases hc : pyLt a b = true
    · rw [if_pos hc] at h
      exact List.mem_cons.mp h
    · rw [if_neg hc] at h
      rcases List.mem_cons.mp h with h | h
      · right
        simp [h]
      · rcases ih h with h | h
        · exact .inl h
        · right
          simp [h]

theorem mem_of_mem_pySorted {x : PyVal} {l : List PyVal} (h : x ∈ pySorted l) : x ∈ l := by
  induction l with
  | nil =>
    rw [pySorted] at h
    exact h
  | cons a t ih =>
    rw [pySorted] at h
    rcases mem_of_mem_pyInsert h with h | h
    · simp [h]
    · simp [ih h]

theorem contains_tuple_map (catalog : List String) (n : String) :
    ((catalog.map fun d => PyVal.pyTuple [d]).contains (PyVal.pyTuple [n]) = true) ↔
      n ∈ catalog := by
  induction catalog with
  | nil => simp
  | cons d rest ih => simp [List.contains_cons, ih]

theorem execStatements_ok (fails : Nat → Bool) :
    ∀ (l : List (String × String)) (k : Nat),
      (∀ j, k ≤ j → j < k + l.length → fails j = false) →
      execStatements fails k l = (List.range' k l.length, false) := by
  intro l
  induction l with
  | nil => intro k _; rfl
  | cons a rest ih =>
    intro k h
    have hk : fails k = false := h k le_rfl (by simp)
    rw [execStatements, hk]
    simp only [Bool.false_eq_true, if_false]
    rw [ih (k + 1) (fun j h₁ h₂ => h j (by omega) (by simp at h₂ ⊢; omega))]
    simp [List.range'_succ]

theorem execStatements_fail (fails : Nat → Bool) :
    ∀ (i : Nat) (l : List (String × String)) (k : Nat),
      i < l.length → fails (k + i) = true → (∀ j, j < i → fails (k + j) = false) →
      execStatements fails k l = (List.range' k (i + 1), true) := by
  intro i
  induction i with
  | zero =>
    intro l k hl hf _
    match l, hl with
    | a :: rest, _ =>
      have hf' : fails k = true := by simpa using hf
      rw [execStatements, hf']
      simp [List.range'_succ]
  | succ i ih =>
    intro l k hl hf hmin
    match l, hl with
    | a :: rest, hl =>
      have hk : fails k = false := by simpa using hmin 0 (Nat.succ_pos i)
      have hf' : fails (k + 1 + i) = true := by
        have hkk : k + 1 + i = k + (i + 1) := by omega
        rw [hkk]
        exact hf
      have hmin' : ∀ j, j < i → fails (k + 1 + j) = false := by
        intro j hj
        have hkk : k + 1 + j = k + (j + 1) := by omega
        rw [hkk]
        exact hmin (j + 1) (by omega)
      rw [execStatements, hk]
      simp only [Bool.false_eq_true, if_false]
      rw [ih rest (k + 1) (by simpa using hl) hf' hmin']
      simp [List.range'_succ]

theorem create_tables_effect_eq (s : List String) :
    create_tables_effect s = .ok (applyNames s main_db_tables) := rfl

theorem mem_applyNames_of_mem {n : String} {s : List String} (names : List String)
    (h : n ∈ s) : n ∈ applyNames s names := by
  induction names generalizing s with
  | nil => exact h
  | cons m ms ih =>
    simp only [applyNames]
    apply ih
    by_cases hm : m ∈ s
    · rw [if_pos hm]
      exact h
    · rw [if_neg hm]
      exact List.mem_append_left _ h

theorem mem_applyNames_self {n : String} {names : List String} (s : List String)
    (h : n ∈ names) : n ∈ applyNames s names := by
  induction names generalizing s with
  | nil => cases h
  | cons m ms ih =>
    simp only [applyNames]
    rcases List.mem_cons.mp h with rfl | h
    · apply mem_applyNames_of_mem
      by_cases hm : n ∈ s
      · rw [if_pos hm]
        exact hm
      · rw [if_neg hm]
        exact List.mem_append_right _ (by simp)
    · exact ih _ h

theorem applyNames_eq_of_subset :
    ∀ {names s : List String}, (∀ n ∈ names, n ∈ s) → applyNames s names = s := by
  intro names
  induction names with
  | nil => intro s _; rfl
  | cons m ms ih =>
    intro s h
    have hm : m ∈ s := h m (by simp)
    simp only [applyNames, if_pos hm]
    exact ih (fun n hn => h n (List.mem_cons_of_mem _ hn))

theorem applyNames_idem (s : List String) (names : List String) :
    applyNames (applyNames s names) names = applyNames s names :=
  applyNames_eq_of_subset (fun _ hn => mem_applyNames_self _ hn)

theorem applyNames_nodup {s : List String} (names : List String) (h : s.Nodup) :
    (applyNames s names).Nodup := by
  induction names generalizing s with
  | nil => exact h
  | cons m ms ih =>
    simp only [applyNames]
    apply ih
    by_cases hm : m ∈ s
    · rw [if_pos hm]
      exact h
    · rw [if_neg hm]
      simp [List.nodup_append, h, hm]

theorem bulk_load_loop_total (outcomes : String → FileOutcome) (tables : List String)
    (h : ∀ t ∈ tables, outcomes t ≠ .missing) :
    bulk_load_loop outcomes tables =
      .ok (tables.map fun t => (t, { errorLogged := copyFailed (outcomes t), committed := true })) := by
  induction tables with
  | nil => rfl
  | cons t rest ih =>
    have ht := h t (by simp)
    rcases ho : outcomes t with _ | b
    · exact absurd ho ht
    · rw [bulk_load_loop, ho]
      rw [ih (fun x hx => h x (List.mem_cons_of_mem _ hx))]
      simp [insert_data_to_db, copyFailed, ho]

/-! ### Claims -/

/-- C1: the orchestrator's table phase is claimed to run `create_tables`
exactly when the table-existence check reports `False`. The code instead
tests `is not None`, so with an empty public schema the check reports
`some false` (tables absent) and `create_tables` is still not invoked:
the table phase returns `false` ("create_tables was not called"). -/
theorem main_skips_create_tables_when_check_is_false :
    check_if_exists_tables true [] main_db_tables = .ok (some false)
  ∧ main_table_phase true [] = .ok false := by
  exact ⟨by decide, by decide⟩

/-- C2: the table-existence check is claimed to return true when the
catalog holds exactly the six expected tables. Evaluated on that exact
catalog, the code returns `False`: it compares the strings of
`db_tables` against the 1-tuples of `fetchall()`, which are never
equal. -/
theorem check_if_exists_tables_false_on_exact_match :
    check_if_exists_tables true
      ["users", "categories", "carts", "orders", "products", "cart_product"]
      main_db_tables = .ok (some false) := by decide

/-- The tuple/string comparison makes the table-existence check
constantly false: no catalog state whatsoever makes it report `True`. -/
theorem check_if_exists_tables_never_true (queryOk : Bool) (catalog : List String) :
    check_if_exists_tables queryOk catalog main_db_tables ≠ .ok (some true) := by
  cases queryOk with
  | false => simp [check_if_exists_tables]
  | true =>
    intro h
    simp only [check_if_exists_tables, if_true, Except.ok.injEq, Option.some.injEq,
      decide_eq_true_eq] at h
    have hmem : PyVal.pyStr "users" ∈
        pySorted ((strSort catalog).map fun t => PyVal.pyTuple [t]) := by
      rw [← h]
      decide
    rcases List.mem_map.mp (mem_of_mem_pySorted hmem) with ⟨t, _, ht⟩
    exact PyVal.noConfusion ht

/-- C3 counterexample: the bulk-load loop is claimed to log and continue
past every per-table failure, including a missing input file. With
`users.csv` missing (and every other file fine), the run aborts with an
uncaught file-not-found error instead of advancing to the remaining
tables. -/
theorem bulk_load_aborts_on_missing_file :
    bulk_load_loop (fun t => if t == "users" then .missing else .present false)
      main_db_tables = .error .fileNotFound := by decide

/-- C3 (amended): for failures of the bulk copy itself (malformed row,
constraint violation) the error is logged and the loop advances through
all six tables, committing after each attempt; only a missing input file
escapes and aborts. -/
theorem bulk_load_copy_failures_continue (outcomes : String → FileOutcome)
    (h : ∀ t, outcomes t ≠ .missing) :
    bulk_load_loop outcomes main_db_tables =
      .ok (main_db_tables.map fun t =>
        (t, { errorLogged := copyFailed (outcomes t), committed := true })) :=
  bulk_load_loop_total outcomes main_db_tables (fun t _ => h t)

/-- C3 witness: a run where only the `users` copy fails attempts all six
tables, logs the one error, and commits each attempt. -/
theorem bulk_load_copy_failures_continue_witness :
    bulk_load_loop (fun t => .present (t == "users")) main_db_tables =
      .ok [("users", { errorLogged := true, committed := true }),
           ("categories", { errorLogged := false, committed := true }),
           ("carts", { errorLogged := false, committed := true }),
           ("orders", { errorLogged := false, committed := true }),
           ("products", { errorLogged := false, committed := true }),
           ("cart_product", { errorLogged := false, committed := true })] := by
  rw [bulk_load_copy_failures_continue (fun t => .present (t == "users"))
    (fun t h => FileOutcome.noConfusion h)]
  decide

/-- C4: `--insert_data` is claimed to be a boolean flag the operator can
set to true. Omitting it does default to `False` (so the loader is
skipped), but because the parser declares `type=str` with
`choices=[True, False]`, every explicitly supplied value is a string
that never equals either boolean choice, so argparse rejects it with a
usage error: the option cannot be turned on at all. -/
theorem insert_data_flag_rejects_every_value :
    (∀ s, parse_insert_data (some s) = .error .usageError)
  ∧ parse_insert_data none = .ok (.pyBool false)
  ∧ main_runs_bulk_load (.pyBool false) = false := by
  refine ⟨fun s => ?_, rfl, rfl⟩
  simp [parse_insert_data, insert_data_choices]

/-- C5: in `create_tables` the try-block wraps the whole loop and the
commit, so with an oracle telling which statement raises: if none of the
six raises they are all executed in order and exactly one commit
follows; if statement `i` is the first to raise, statements after `i`
are not attempted, no commit is issued, the error is logged, and the
function still returns normally (never re-raises). -/
theorem create_tables_per_batch_error_policy (fails : Nat → Bool) :
    ((∀ i, i < 6 → fails i = false) →
      create_tables_run fails =
        { attempted := [0, 1, 2, 3, 4, 5], commits := 1, errorLogged := false,
          raised := false })
  ∧ (∀ i, i < 6 → fails i = true → (∀ j, j < i → fails j = false) →
      create_tables_run fails =
        { attempted := List.range (i + 1), commits := 0, errorLogged := true,
          raised := false }) := by
  have hlen : (commands.zip main_db_tables).length = 6 := rfl
  constructor
  · intro h
    have he : execStatements fails 0 (commands.zip main_db_tables) =
        (List.range' 0 6, false) := by
      rw [execStatements_ok fails (commands.zip main_db_tables) 0
        (fun j _ hj => h j (by rw [hlen] at hj; simpa using hj))]
      rw [hlen]
    unfold create_tables_run
    rw [he]
    decide
  · intro i hi hf hmin
    have he : execStatements fails 0 (commands.zip main_db_tables) =
        (List.range' 0 (i + 1), true) :=
      execStatements_fail fails i (commands.zip main_db_tables) 0
        (by rw [hlen]; exact hi) (by simpa using hf)
        (fun j hj => by simpa using hmin j hj)
    unfold create_tables_run
    rw [he]
    simp [List.range_eq_range']

/-- C5 witness: with no failing statement the run attempts all six and
commits once; with statement 2 as the first failure the run stops at
index 2 with no commit, a logged error, and no re-raise. -/
theorem create_tables_per_batch_error_policy_witness :
    create_tables_run (fun _ => false) =
      { attempted := [0, 1, 2, 3, 4, 5], commits := 1, errorLogged := false,
        raised := false }
  ∧ create_tables_run (fun i => decide (i = 2)) =
      { attempted := [0, 1, 2], commits := 0, errorLogged := true, raised := false } := by
  constructor
  · exact (create_tables_per_batch_error_policy (fun _ => false)).1 (fun _ _ => rfl)
  · rw [(create_tables_per_batch_error_policy (fun i => decide (i = 2))).2 2 (by decide)
      (by decide) (fun j hj => by interval_cases j <;> decide)]
    decide

/-- C6: every statement of `create_tables` is a
`CREATE TABLE IF NOT EXISTS`, the run on any duplicate-free table set
succeeds and adds exactly the missing expected tables, running it again
on the resulting state changes nothing and raises no error, and the
result holds no duplicate table. -/
theorem create_tables_idempotent (s : List String) (h : s.Nodup) :
    commands.map createIfNotExistsTarget =
      [some "users", some "categories", some "carts", some "orders", some "products",
       some "cart_product"]
  ∧ create_tables_effect s = .ok (applyNames s main_db_tables)
  ∧ create_tables_effect (applyNames s main_db_tables) = .ok (applyNames s main_db_tables)
  ∧ (applyNames s main_db_tables).Nodup := by
  refine ⟨by decide, create_tables_effect_eq s, ?_, applyNames_nodup _ h⟩
  rw [create_tables_effect_eq, applyNames_idem]

/-- C6 witness: starting from an empty public schema the run creates the
six tables, and a second run returns the same table set. -/
theorem create_tables_idempotent_witness :
    ([] : List String).Nodup
  ∧ (commands.map createIfNotExistsTarget =
      [some "users", some "categories", some "carts", some "orders", some "products",
       some "cart_product"]
    ∧ create_tables_effect [] = .ok (applyNames [] main_db_tables)
    ∧ create_tables_effect (applyNames [] main_db_tables) =
        .ok (applyNames [] main_db_tables)
    ∧ (applyNames [] main_db_tables).Nodup) :=
  ⟨List.nodup_nil, create_tables_idempotent [] List.nodup_nil⟩

/-- C7: the connection factory hands `psycopg2.connect` a parameter set
with `connect_timeout = 10`; any connection failure becomes an immediate
`SystemExit` (one attempt, no retry), and a successful attempt returns
the connection object opened with exactly those parameters. -/
theorem create_connection_timeout_and_fail_fast (db_user db_password db_host db_port : String)
    (db_name : Option String) (msg : String) :
    create_connection_to_POSTGRES db_user db_password db_host db_port db_name
        (.failure msg) = .error .systemExit
  ∧ create_connection_to_POSTGRES db_user db_password db_host db_port db_name
        .success =
      .ok ⟨{ user := db_user, password := db_password, host := db_host, port := db_port,
             connect_timeout := 10, database := db_name }⟩ :=
  ⟨rfl, rfl⟩

/-- C8: when the requested name is not yet in the server catalog the
database-existence check returns false; the creation step then succeeds,
appends the name to the catalog and returns `True`; re-running the
check on the resulting catalog returns true; and a failing catalog query
raises `SystemExit`. -/
theorem check_database_before_and_after_create (catalog : List String) (db_name : String)
    (h : db_name ∉ catalog) :
    check_if_exists_database true catalog db_name = .ok false
  ∧ create_database db_name catalog = .ok (catalog ++ [db_name], true)
  ∧ check_if_exists_database true (catalog ++ [db_name]) db_name = .ok true
  ∧ check_if_exists_database false catalog db_name = .error .systemExit := by
  refine ⟨?_, by simp [create_database, h], ?_, rfl⟩
  · simp only [check_if_exists_database, if_true, Except.ok.injEq]
    rw [Bool.eq_false_iff]
    intro hc
    exact h ((contains_tuple_map catalog db_name).mp hc)
  · simp only [check_if_exists_database, if_true, Except.ok.injEq]
    exact (contains_tuple_map (catalog ++ [db_name]) db_name).mpr (by simp)

/-- C8 witness: on an empty server catalog, the check for `shop` is
false, creating `shop` succeeds, and the check is true afterwards. -/
theorem check_database_before_and_after_create_witness :
    ("shop" ∉ ([] : List String))
  ∧ (check_if_exists_database true [] "shop" = .ok false
    ∧ create_database "shop" [] = .ok ([] ++ ["shop"], true)
    ∧ check_if_exists_database true ([] ++ ["shop"]) "shop" = .ok true
    ∧ check_if_exists_database false [] "shop" = .error .systemExit) :=
  ⟨by simp, check_database_before_and_after_create [] "shop" (by simp)⟩

/-- C9: for any contents of `users` and `cart_product`, a successful run
of the reporting query yields one row per user — first name, last name,
and the count of `cart_product` rows whose `carts_cart_id` equals the
user's id — under exactly the three column labels, and `main` renders
only the first 20 of those rows; a failing query raises `SystemExit`. -/
theorem first_db_request_report (users : List UserRow) (cart_product : List CartProductRow) :
    main_report true users cart_product =
      .ok { rows := (users.map fun u =>
              (u.first_name, u.last_name,
                (cart_product.filter fun cp => cp.carts_cart_id == u.user_id).length)).take 20
            columns := ["First name", "Last name", "Number of products in the cart"] }
  ∧ (first_select users cart_product).length = users.length
  ∧ main_report false users cart_product = .error .systemExit := by
  refine ⟨?_, ?_, rfl⟩
  · simp [main_report, first_db_request, DataFrame.head, first_select]
  · simp [first_select]

/-- C10: the table-existence check never produces Python `None` despite
its `Optional[bool]` annotation: for every query outcome and catalog it
either raises `SystemExit` or returns `some` boolean, and any returned
value passes the orchestrator's `is not None` test. -/
theorem check_if_exists_tables_never_none (queryOk : Bool) (catalog db_tables : List String) :
    (check_if_exists_tables queryOk catalog db_tables = .error .systemExit
      ∨ ∃ b, check_if_exists_tables queryOk catalog db_tables = .ok (some b))
  ∧ (∀ r, check_if_exists_tables queryOk catalog db_tables = .ok r → r.isSome = true) := by
  cases queryOk with
  | false =>
    refine ⟨.inl rfl, fun r h => ?_⟩
    simp [check_if_exists_tables] at h
  | true =>
    refine ⟨.inr ⟨_, rfl⟩, fun r h => ?_⟩
    simp only [check_if_exists_tables, if_true, Except.ok.injEq] at h
    rw [← h]
    rfl

/-- C10 witness: with both lists empty the check returns `some true`,
which is not `None`. -/
theorem check_if_exists_tables_never_none_witness :
    check_if_exists_tables true [] [] = .ok (some true)
  ∧ (some true : Option Bool).isSome = true :=
  ⟨by decide, (check_if_exists_tables_never_none true [] []).2 (some true) (by decide)⟩

end CreateDb
